import Mathlib

/-!
A shallow embedding of the robocall ticket service (`app.js`): webhook
signature and timestamp verification, unique ticket-number allocation, the
reconciliation of post-call transcription events into the
`robocall_tickets` record set, the manual ticket-creation endpoints, and
the audio upsert described by the design document.  Mongo collections are
modelled as Lean lists of documents, `Date.now()` and `Math.random()` are
passed in explicitly, and the HMAC primitive (a Node library call) is a
parameter of the verifier.
-/

deriving instance DecidableEq for Except

/-- JS `a || b` for string-valued fields: `null`, `undefined` and `""` are falsy. -/
def jsOrStr (a : Option String) (b : String) : String :=
  match a with
  | some s => if s = "" then b else s
  | none => b

/-- JS `a || b` for numeric fields: `null`, `undefined` and `0` are falsy. -/
def jsOrNat (a : Option Nat) (b : Nat) : Nat :=
  match a with
  | some n => if n = 0 then b else n
  | none => b

/-- JS truthiness test `!x` for an optional string field. -/
def jsFalsyStr : Option String → Bool
  | none => true
  | some s => s == ""

/-- The allocation alphabet of `generateUniqueTicketNumber`. -/
def ticketChars : String := "ABCDEFGHIJKLMNOPQRSTUVWXYZ0123456789"

/-- `chars[Math.floor(Math.random() * chars.length)]`: the character selected by
one uniform draw from the 36-symbol alphabet. -/
def charAt (i : Fin 36) : Char := ticketChars.data.getD i.val 'A'

/-- One candidate ticket number: six independently drawn characters, consuming
draws `r off, …, r (off + 5)` of the random stream `r`. -/
def drawCandidate (r : Nat → Fin 36) (off : Nat) : String :=
  String.mk ((List.range 6).map (fun i => charAt (r (off + i))))

inductive TicketError where
  | allocationExhausted
deriving DecidableEq

/-- The do/while retry loop of `generateUniqueTicketNumber` (`app.js`), with the
remaining attempt budget explicit; the top-level call starts with budget 5
(`maxTries = 5`).  Each iteration draws a candidate, checks whether it already
exists in the record set `ns`, and either returns it, retries, or — once the
budget is exhausted — throws. -/
def genLoop (ns : List String) (r : Nat → Fin 36) : Nat → Nat → Except TicketError String
  | _, 0 => .error .allocationExhausted
  | off, fuel + 1 =>
    let cand := drawCandidate r off
    if cand ∈ ns then genLoop ns r (off + 6) fuel else .ok cand

/-- `generateUniqueTicketNumber(collection)` (`app.js` lines 644-654), with the
collection's existing ticket numbers `ns` and the randomness `r` explicit. -/
def generateUniqueTicketNumber (ns : List String) (r : Nat → Fin 36) :
    Except TicketError String :=
  genLoop ns r 0 5

/-- The two metadata timestamps the reconciler reads. -/
structure Metadata where
  start_time_unix_secs : Option Nat
  accepted_time_unix_secs : Option Nat
deriving DecidableEq

/-- A `data_collection_results` entry collapsed to its `.value` (absence at the
field or `.value` level is `none`). -/
structure Dcr where
  subject : Option String
  category : Option String
  customer_name : Option String
  priority : Option String
deriving DecidableEq

structure Analysis where
  data_collection_results : Option Dcr
deriving DecidableEq

/-- A raw transcript turn: the four fields the reconciler keeps, plus whatever
other fields the event carried (dropped by `cleanTranscript`). -/
structure RawTurn where
  role : Option String
  message : Option String
  time_in_call_secs : Option Int
  interrupted : Option Bool
  extra : List (String × String)
deriving DecidableEq

/-- A normalized transcript turn: exactly `{role, message, time_in_call_secs,
interrupted}`. -/
structure Turn where
  role : Option String
  message : Option String
  time_in_call_secs : Option Int
  interrupted : Option Bool
deriving DecidableEq

/-- The payload fields `create_robocall_ticket` reads (either at the top level
of the event or nested under `data`).  `transcript = none` models a missing or
non-array `transcript` field. -/
structure EventPayload where
  agent_id : Option String
  conversation_id : Option String
  status : Option String
  user_id : Option String
  transcript : Option (List RawTurn)
  metadata : Option Metadata
  analysis : Option Analysis
deriving DecidableEq

/-- An inbound webhook event: the `type` discriminator, the optional `data`
sub-object, and the payload fields sitting at the top level of the event
object itself. -/
structure Event where
  type : String
  data : Option EventPayload
  top : EventPayload
deriving DecidableEq

/-- `const data = event.data || event;` -/
def eventData (e : Event) : EventPayload := e.data.getD e.top

/-- `cleanTranscript` (`app.js`): a non-array input becomes `[]`, and each turn
is reduced to exactly the four kept fields. -/
def cleanTranscript : Option (List RawTurn) → List Turn
  | none => []
  | some l => l.map (fun t => ⟨t.role, t.message, t.time_in_call_secs, t.interrupted⟩)

/-- `data?.metadata?.start_time_unix_secs || data?.metadata?.accepted_time_unix_secs
|| Math.floor(Date.now() / 1000)` — JS `||` chain, so a present value of `0` is
skipped like an absent one. -/
def eventTimestamp (md : Option Metadata) (nowSecs : Nat) : Nat :=
  jsOrNat (md.bind Metadata.start_time_unix_secs)
    (jsOrNat (md.bind Metadata.accepted_time_unix_secs) nowSecs)

/-- `subject = dcr.subject?.value || ""` guarded by
`data.analysis && data.analysis.data_collection_results`. -/
def extractedSubject (d : EventPayload) : String :=
  match d.analysis.bind Analysis.data_collection_results with
  | some dcr => jsOrStr dcr.subject ""
  | none => ""

def extractedCategory (d : EventPayload) : String :=
  match d.analysis.bind Analysis.data_collection_results with
  | some dcr => jsOrStr dcr.category ""
  | none => ""

def extractedCustomerName (d : EventPayload) : String :=
  match d.analysis.bind Analysis.data_collection_results with
  | some dcr => jsOrStr dcr.customer_name ""
  | none => ""

/-- `priority` defaults to `"low"` both when the analysis block is missing and
when the individual value is falsy. -/
def extractedPriority (d : EventPayload) : String :=
  match d.analysis.bind Analysis.data_collection_results with
  | some dcr => jsOrStr dcr.priority "low"
  | none => "low"

/-- The nested object of a ticket's `call_transcription`.  Fields a given write
leaves out of the document are `none`. -/
structure CallData where
  agent_id : Option String
  conversation_id : Option String
  status : Option String
  user_id : Option String
  transcript : Option (List Turn)
  metadata : Option Metadata
  analysis : Option Analysis
  received_at : Option Nat
  audio_url : Option String
deriving DecidableEq

structure CallTranscription where
  event_timestamp : Option Nat
  data : CallData
deriving DecidableEq

/-- The `call_transcription` object the reconciler builds (`app.js` lines
842-865).  `now` is `Date.now()` in milliseconds: `received_at` stores it as a
date, and the timestamp fallback is `Math.floor(Date.now() / 1000)`. -/
def buildCallTranscription (now : Nat) (d : EventPayload) : CallTranscription :=
  { event_timestamp := some (eventTimestamp d.metadata (now / 1000))
    data :=
      { agent_id := d.agent_id
        conversation_id := d.conversation_id
        status := d.status
        user_id := d.user_id
        transcript := some (cleanTranscript d.transcript)
        metadata := d.metadata
        analysis := d.analysis
        received_at := some now
        audio_url := none } }

/-- A document of the `robocall_tickets` collection.  `none` models a field the
document does not carry (or carries as `null`). -/
structure RTicket where
  ticket_number : String
  ticket_status : String
  subject : String
  category : String
  customer_name : String
  priority : String
  eval : Option String
  call_transcription : CallTranscription
  created_at : Option Nat
  updated_at : Option Nat
deriving DecidableEq

/-- The reconciliation key of a ticket: the `(agent_id, conversation_id)` pair
taken from `call_transcription.data`. -/
def tpair (t : RTicket) : Option String × Option String :=
  (t.call_transcription.data.agent_id, t.call_transcription.data.conversation_id)

/-- The `findOne` filter of the reconciler and of the audio upsert: exact match
on both `call_transcription.data.agent_id` and
`call_transcription.data.conversation_id`. -/
def ticketMatches (aid cid : Option String) (t : RTicket) : Bool :=
  t.call_transcription.data.agent_id == aid &&
    t.call_transcription.data.conversation_id == cid

/-- `findOne` followed by an update addressed by `_id`: locate the first
document satisfying `p` and return the documents before it, the document, and
the documents after it. -/
def splitFirst (p : RTicket → Bool) : List RTicket → Option (List RTicket × RTicket × List RTicket)
  | [] => none
  | t :: rest =>
    if p t then some ([], t, rest)
    else
      match splitFirst p rest with
      | some (pre, f, post) => some (t :: pre, f, post)
      | none => none

/-- The `$set` document of the reconciler's found branch (`app.js` lines
873-890): overwrite the analysis-derived fields and the whole
`call_transcription`, force `ticket_status = "closed"`, reset `eval` to null,
set `updated_at`; every other field of the existing document is untouched. -/
def reconcileUpdate (now : Nat) (ev : Event) (ex : RTicket) : RTicket :=
  { ex with
      subject := extractedSubject (eventData ev)
      category := extractedCategory (eventData ev)
      customer_name := extractedCustomerName (eventData ev)
      priority := extractedPriority (eventData ev)
      call_transcription := buildCallTranscription now (eventData ev)
      ticket_status := "closed"
      eval := none
      updated_at := some now }

/-- The `ticketDoc` of the reconciler's not-found branch (`app.js` lines
895-904).  The source builds this document without `created_at` (and without
`updated_at`), so both are `none` here. -/
def freshTicketDoc (now : Nat) (tn : String) (ev : Event) : RTicket :=
  { ticket_number := tn
    ticket_status := "closed"
    subject := extractedSubject (eventData ev)
    category := extractedCategory (eventData ev)
    customer_name := extractedCustomerName (eventData ev)
    priority := extractedPriority (eventData ev)
    eval := none
    call_transcription := buildCallTranscription now (eventData ev)
    created_at := none
    updated_at := none }

/-- `create_robocall_ticket(event)` (`app.js` lines 827-909) acting on the
`robocall_tickets` record set `db`.  `now` is `Date.now()` in milliseconds and
`r` the random stream used by ticket-number allocation.  Returns the created
or preserved ticket number together with the new record set. -/
def create_robocall_ticket (now : Nat) (r : Nat → Fin 36) (event : Event)
    (db : List RTicket) : Except TicketError (String × List RTicket) :=
  let d := eventData event
  match splitFirst (ticketMatches d.agent_id d.conversation_id) db with
  | some (pre, existing, post) =>
    .ok (existing.ticket_number, pre ++ reconcileUpdate now event existing :: post)
  | none =>
    match generateUniqueTicketNumber (db.map RTicket.ticket_number) r with
    | .error e => .error e
    | .ok tn => .ok (tn, db ++ [freshTicketDoc now tn event])

/-- Body of `POST /webhook/robocall-ticket`. -/
structure ManualBody where
  subject : Option String
  category : Option String
  customer_name : Option String
  priority : Option String
  agent_id : Option String
  conversation_id : Option String
deriving DecidableEq

/-- `POST /webhook/robocall-ticket` (`app.js` lines 973-1006): validate the
required fields, allocate a fresh number, and insert an `"open"` ticket whose
`call_transcription` holds only the two identifying fields.  Returns the HTTP
status and the new record set. -/
def robocallTicketManual (now : Nat) (r : Nat → Fin 36) (b : ManualBody)
    (db : List RTicket) : Nat × List RTicket :=
  if jsFalsyStr b.subject || jsFalsyStr b.agent_id || jsFalsyStr b.conversation_id then
    (400, db)
  else
    match generateUniqueTicketNumber (db.map RTicket.ticket_number) r with
    | .error _ => (500, db)
    | .ok tn =>
      (201, db ++
        [{ ticket_number := tn
           ticket_status := "open"
           subject := b.subject.getD ""
           category := jsOrStr b.category ""
           customer_name := jsOrStr b.customer_name ""
           priority := jsOrStr b.priority "low"
           eval := none
           call_transcription :=
             { event_timestamp := none
               data :=
                 { agent_id := b.agent_id
                   conversation_id := b.conversation_id
                   status := none
                   user_id := none
                   transcript := none
                   metadata := none
                   analysis := none
                   received_at := none
                   audio_url := none } }
           created_at := some now
           updated_at := none }])

/-- Overwrite only `call_transcription.data.audio_url` of a ticket, leaving
every other field alone (the `$set` of the audio upsert). -/
def audioMerge (url : String) (t : RTicket) : RTicket :=
  { t with
      call_transcription :=
        { t.call_transcription with
            data := { t.call_transcription.data with audio_url := some url } } }

/-- Modelled from the spec: the audio branch of the webhook
(AudioIngestDispatcher, design document section 4.5) is not in the source
tree; only the transcript branch is.  After storing the decoded audio blob,
it performs an upsert filtered by the `(agent_id, conversation_id)` key that
sets only `call_transcription.data.audio_url`, creating a ticket shell when no
ticket exists yet.  Fields absent from the upserted shell document are
modelled as `none` / `""`. -/
def audioUpsert (aid cid : Option String) (url : String) (db : List RTicket) :
    List RTicket :=
  match splitFirst (ticketMatches aid cid) db with
  | some (pre, ex, post) => pre ++ audioMerge url ex :: post
  | none =>
    db ++
      [{ ticket_number := ""
         ticket_status := ""
         subject := ""
         category := ""
         customer_name := ""
         priority := ""
         eval := none
         call_transcription :=
           { event_timestamp := none
             data :=
               { agent_id := aid
                 conversation_id := cid
                 status := none
                 user_id := none
                 transcript := none
                 metadata := none
                 analysis := none
                 received_at := none
                 audio_url := some url } }
         created_at := none
         updated_at := none }]

/-- The record set a `create_robocall_ticket` call produced (the empty set if
the call threw). -/
def resultDb : Except TicketError (String × List RTicket) → List RTicket
  | .ok p => p.2
  | .error _ => []

/-- At most one ticket of the record set carries any given
`(agent_id, conversation_id)` pair. -/
def UniquePairs (db : List RTicket) : Prop := (db.map tpair).Nodup

instance (db : List RTicket) : Decidable (UniquePairs db) :=
  inferInstanceAs (Decidable (db.map tpair).Nodup)

/-- The record sets reachable from the empty collection by the two operations
that write `robocall_tickets` documents: reconciliation of a webhook event and
manual creation via `POST /webhook/robocall-ticket`. -/
inductive ReachableState : List RTicket → Prop where
  | empty : ReachableState []
  | reconcile (now : Nat) (r : Nat → Fin 36) (ev : Event) (db db' : List RTicket)
      (tn : String) : ReachableState db →
      create_robocall_ticket now r ev db = .ok (tn, db') → ReachableState db'
  | manual (now : Nat) (r : Nat → Fin 36) (b : ManualBody) (db db' : List RTicket)
      (st : Nat) : ReachableState db →
      robocallTicketManual now r b db = (st, db') → ReachableState db'

/-- A document of the plain `tickets` collection. -/
structure STicket where
  ticket_number : String
  subject : String
  status : String
  description : String
  priority : String
  customer_name : String
  agent_id : String
  created_at : Nat
deriving DecidableEq

/-- Body of `POST /webhook/ticket`. -/
structure TicketBody where
  subject : Option String
  description : Option String
  priority : Option String
  customer_name : Option String
  agent_id : Option String
  status : Option String
deriving DecidableEq

inductive JsError where
  | referenceError
deriving DecidableEq

/-- The object literal initializing `const ticket` in `POST /webhook/ticket`
(`app.js` lines 671-680).  Its `status` property reads `ticket.status`, i.e.
the very `ticket` binding being initialized; the binding's value during the
initializer, `none` while the `const` is still in its temporal dead zone, is
passed as `tdzTicket`, and reading it throws a ReferenceError. -/
def ticketLiteralInit (tdzTicket : Option STicket) (tn : String) (now : Nat)
    (b : TicketBody) : Except JsError STicket :=
  match tdzTicket with
  | none => .error .referenceError
  | some prev =>
    .ok
      { ticket_number := tn
        subject := b.subject.getD ""
        status := jsOrStr (some prev.status) "open"
        description := jsOrStr b.description ""
        priority := jsOrStr b.priority "normal"
        customer_name := jsOrStr b.customer_name ""
        agent_id := jsOrStr b.agent_id ""
        created_at := now }

/-- `POST /webhook/ticket` (`app.js` lines 664-686): reject a falsy subject,
allocate a ticket number, evaluate the `ticket` object literal — which reads
the uninitialized `ticket` binding — and, were that to succeed, insert the
document.  Any throw is answered with a 500. -/
def webhookTicketPost (now : Nat) (r : Nat → Fin 36) (b : TicketBody)
    (db : List STicket) : Nat × List STicket :=
  if jsFalsyStr b.subject then (400, db)
  else
    match generateUniqueTicketNumber (db.map STicket.ticket_number) r with
    | .error _ => (500, db)
    | .ok tn =>
      match ticketLiteralInit none tn now b with
      | .error _ => (500, db)
      | .ok t => (201, db ++ [t])

inductive VerifyError where
  | config
  | auth
  | expired
  | malformed
deriving DecidableEq

/-- JS `String.prototype.split` with a one-character separator, on the
character list of the string. -/
def jsSplitAux (c : Char) : List Char → List (List Char)
  | [] => [[]]
  | a :: rest =>
    let r := jsSplitAux c rest
    if a = c then [] :: r
    else
      match r with
      | [] => [[a]]
      | g :: gs => (a :: g) :: gs

/-- `header.split(",")`. -/
def jsSplit (s : String) (c : Char) : List String :=
  (jsSplitAux c s.data).map String.mk

/-- JS `e.startsWith(p)`. -/
def jsStartsWith (s p : String) : Bool := s.data.take p.data.length == p.data

/-- JS `e.substring(n)`. -/
def jsDrop (s : String) (n : Nat) : String := String.mk (s.data.drop n)

def jsDigitsAux : Nat → List Char → Option Nat
  | acc, [] => some acc
  | acc, ch :: rest =>
    if ch.isDigit then jsDigitsAux (acc * 10 + (ch.toNat - 48)) rest else none

def jsDigits? : List Char → Option Nat
  | [] => none
  | l => jsDigitsAux 0 l

/-- JS `Number(s)` restricted to optionally-signed decimal integer strings;
`none` stands for NaN, whose comparisons are all false. -/
def jsNumber? (s : String) : Option Int :=
  match s.data with
  | '-' :: rest => (jsDigits? rest).map (fun n => -(n : Int))
  | l => (jsDigits? l).map (fun n => (n : Int))

/-- The `t=` component of the signature header: split on commas, find the first
component starting with `t=`, take its remainder
(`headers.find(e => e.startsWith("t="))?.substring(2)`). -/
def tComponent (h : String) : Option String :=
  ((jsSplit h ',').find? (fun e => jsStartsWith e "t=")).map (fun e => jsDrop e 2)

/-- The `v0=` component of the signature header, kept whole (the code compares
it against the full `"v0=" + digest` string). -/
def v0Component (h : String) : Option String :=
  (jsSplit h ',').find? (fun e => jsStartsWith e "v0=")

/-- `Number(timestamp) * 1000`. -/
def jsTimestampMs (t : String) : Option Int := (jsNumber? t).map (· * 1000)

/-- `reqTimestamp < Date.now() - 30 * 60 * 1000`. -/
def isExpired (nowMs : Int) (t : String) : Bool :=
  match jsTimestampMs t with
  | some ms => decide (ms < nowMs - 1800000)
  | none => false

/-- The signature/timestamp gate of `POST /webhook/elevenlabs/postcall`
(`app.js` lines 1041-1078).  `hmacHex secret message` stands for the Node
`crypto.createHmac("sha256", secret).update(message).digest("hex")` call,
which is external to this repository.  On success the raw body is returned
for parsing. -/
def verifyWebhookSignature (secret : Option String) (nowMs : Int)
    (hmacHex : String → String → String) (header : Option String)
    (body : String) : Except VerifyError String :=
  match secret with
  | none => .error .config
  | some sec =>
    match header with
    | none => .error .auth
    | some h =>
      match tComponent h, v0Component h with
      | some t, some sig =>
        if t = "" then .error .auth
        else if isExpired nowMs t then .error .expired
        else if sig = "v0=" ++ hmacHex sec (t ++ "." ++ body) then .ok body
        else .error .auth
      | _, _ => .error .auth

def statusOfVerifyError : VerifyError → Nat
  | .config => 500
  | .auth => 401
  | .expired => 403
  | .malformed => 400

/-- An inbound request to the postcall webhook: the `elevenlabs-signature`
header (if any) and the raw body. -/
structure PostcallReq where
  header : Option String
  body : String

/-- The event-dispatch stage of the webhook for a parsed event: ignore
unrecognized event types with a 200; store recognized events in
`postcall_transcriptions` and reconcile a robocall ticket, reconciliation
errors being logged, never surfaced. -/
def postcallDispatch (nowDate : Nat) (r : Nat → Fin 36) (ev : Event)
    (pcs : List (Event × Nat)) (db : List RTicket) :
    Nat × List (Event × Nat) × List RTicket :=
  if ev.type ≠ "post_call_transcription" then (200, pcs, db)
  else
    let pcs' := pcs ++ [(ev, nowDate)]
    match create_robocall_ticket nowDate r ev db with
    | .ok x => (200, pcs', x.2)
    | .error _ => (200, pcs', db)

/-- The post-verification stage of the webhook: parse the raw body (`parse`
stands for `JSON.parse`; `none` is a parse failure, answered 400) and
dispatch on the event type. -/
def postcallProcess (parse : String → Option Event) (nowDate : Nat)
    (r : Nat → Fin 36) (body : String) (pcs : List (Event × Nat))
    (db : List RTicket) : Nat × List (Event × Nat) × List RTicket :=
  match parse body with
  | none => (400, pcs, db)
  | some ev => postcallDispatch nowDate r ev pcs db

/-- `POST /webhook/elevenlabs/postcall` (`app.js` lines 1033-1114): verify the
signature and timestamp, then parse and dispatch.  Returns the HTTP status,
the new `postcall_transcriptions` set, and the new `robocall_tickets` set. -/
def postcallHandler (secret : Option String) (nowMs : Int)
    (hmacHex : String → String → String) (parse : String → Option Event)
    (nowDate : Nat) (r : Nat → Fin 36) (req : PostcallReq)
    (pcs : List (Event × Nat)) (db : List RTicket) :
    Nat × List (Event × Nat) × List RTicket :=
  match verifyWebhookSignature secret nowMs hmacHex req.header req.body with
  | .error e => (statusOfVerifyError e, pcs, db)
  | .ok body => postcallProcess parse nowDate r body pcs db

/-! ### Helper lemmas -/

theorem genLoop_ok_spec (ns : List String) (r : Nat → Fin 36) :
    ∀ fuel off s, genLoop ns r off fuel = .ok s →
      s ∉ ns ∧ ∃ k, k < fuel ∧ s = drawCandidate r (off + 6 * k) := by
  intro fuel
  induction fuel with
  | zero => intro off s h; simp [genLoop] at h
  | succ fuel ih =>
    intro off s h
    simp only [genLoop] at h
    by_cases hc : drawCandidate r off ∈ ns
    · rw [if_pos hc] at h
      obtain ⟨h1, k, hk, he⟩ := ih (off + 6) s h
      refine ⟨h1, k + 1, by omega, ?_⟩
      rw [he]
      congr 1
      omega
    · rw [if_neg hc] at h
      injection h with h2
      subst h2
      exact ⟨hc, 0, by omega, by simp⟩

theorem genLoop_error_iff (ns : List String) (r : Nat → Fin 36) :
    ∀ fuel off, genLoop ns r off fuel = .error .allocationExhausted ↔
      ∀ k, k < fuel → drawCandidate r (off + 6 * k) ∈ ns := by
  intro fuel
  induction fuel with
  | zero => intro off; simp [genLoop]
  | succ fuel ih =>
    intro off
    simp only [genLoop]
    by_cases hc : drawCandidate r off ∈ ns
    · rw [if_pos hc, ih (off + 6)]
      constructor
      · intro h k hk
        cases k with
        | zero => simpa using hc
        | succ k =>
          have e : off + 6 * (k + 1) = off + 6 + 6 * k := by omega
          rw [e]
          exact h k (by omega)
      · intro h k hk
        have e : off + 6 + 6 * k = off + 6 * (k + 1) := by omega
        rw [e]
        exact h (k + 1) (by omega)
    · rw [if_neg hc]
      constructor
      · intro h; cases h
      · intro h
        exact absurd (by simpa using h 0 (by omega)) hc

theorem drawCandidate_length (r : Nat → Fin 36) (off : Nat) :
    (drawCandidate r off).length = 6 := by
  simp [drawCandidate, String.length]

theorem charAt_mem : ∀ i : Fin 36, charAt i ∈ ticketChars.data := by decide

theorem drawCandidate_chars (r : Nat → Fin 36) (off : Nat) :
    ∀ c ∈ (drawCandidate r off).data, c ∈ ticketChars.data := by
  intro c hc
  have : (drawCandidate r off).data = (List.range 6).map (fun i => charAt (r (off + i))) := rfl
  rw [this] at hc
  obtain ⟨i, _, rfl⟩ := List.mem_map.mp hc
  exact charAt_mem _

theorem splitFirst_eq (p : RTicket → Bool) :
    ∀ db pre x post, splitFirst p db = some (pre, x, post) →
      db = pre ++ x :: post ∧ p x = true := by
  intro db
  induction db with
  | nil => intro pre x post h; simp [splitFirst] at h
  | cons t rest ih =>
    intro pre x post h
    simp only [splitFirst] at h
    by_cases hp : p t
    · rw [if_pos hp] at h
      simp only [Option.some.injEq, Prod.mk.injEq] at h
      obtain ⟨h1, h2, h3⟩ := h
      subst h1; subst h2; subst h3
      exact ⟨rfl, hp⟩
    · rw [if_neg hp] at h
      cases hsp : splitFirst p rest with
      | none => rw [hsp] at h; cases h
      | some y =>
        obtain ⟨pre2, x2, post2⟩ := y
        rw [hsp] at h
        simp only [Option.some.injEq, Prod.mk.injEq] at h
        obtain ⟨h1, h2, h3⟩ := h
        subst h1; subst h2; subst h3
        obtain ⟨hdb, hpx⟩ := ih pre2 x2 post2 hsp
        exact ⟨by rw [hdb]; rfl, hpx⟩

theorem splitFirst_none (p : RTicket → Bool) :
    ∀ db, splitFirst p db = none → ∀ x ∈ db, p x = false := by
  intro db
  induction db with
  | nil => intro _ x hx; cases hx
  | cons t rest ih =>
    intro h x hx
    simp only [splitFirst] at h
    by_cases hp : p t
    · rw [if_pos hp] at h; cases h
    · rw [if_neg hp] at h
      cases hsp : splitFirst p rest with
      | none =>
        cases hx with
        | head => exact Bool.eq_false_iff.mpr hp
        | tail _ hx2 => exact ih hsp x hx2
      | some y =>
        obtain ⟨pre2, x2, post2⟩ := y
        rw [hsp] at h
        cases h

theorem splitFirst_append_singleton (p : RTicket → Bool) (x : RTicket) (hx : p x = true) :
    ∀ db, splitFirst p db = none → splitFirst p (db ++ [x]) = some (db, x, []) := by
  intro db
  induction db with
  | nil => intro _; simp [splitFirst, hx]
  | cons t rest ih =>
    intro h
    rw [List.cons_append]
    simp only [splitFirst] at h ⊢
    by_cases hp : p t
    · rw [if_pos hp] at h; cases h
    · rw [if_neg hp] at h ⊢
      cases hsp : splitFirst p rest with
      | none =>
        rw [ih hsp]
      | some y =>
        obtain ⟨pre2, x2, post2⟩ := y
        rw [hsp] at h
        cases h

theorem ticketMatches_iff (aid cid : Option String) (t : RTicket) :
    ticketMatches aid cid t = true ↔ tpair t = (aid, cid) := by
  simp [ticketMatches, tpair, Prod.ext_iff]

/-! ### Concrete demonstration inputs -/

/-- A degenerate random stream: every draw selects index 0 (the character `A`). -/
def rZero : Nat → Fin 36 := fun _ => 0

/-- A random stream whose every draw selects index 1 (the character `B`). -/
def rOne : Nat → Fin 36 := fun _ => 1

def emptyPayload : EventPayload :=
  { agent_id := none, conversation_id := none, status := none, user_id := none,
    transcript := none, metadata := none, analysis := none }

def metadataDemo : Metadata :=
  { start_time_unix_secs := some 7, accepted_time_unix_secs := some 9 }

def dcrDemo : Dcr :=
  { subject := some "s", category := some "g", customer_name := some "n", priority := none }

def analysisDemo : Analysis := { data_collection_results := some dcrDemo }

def rawTurnDemo : RawTurn :=
  { role := some "agent", message := some "hi", time_in_call_secs := some 0,
    interrupted := some false, extra := [("x", "y")] }

/-- A typical transcript-event payload for agent `a`, conversation `c`. -/
def payloadAC : EventPayload :=
  { agent_id := some "a", conversation_id := some "c", status := some "done",
    user_id := none, transcript := some [rawTurnDemo],
    metadata := some metadataDemo, analysis := some analysisDemo }

def ev1 : Event :=
  { type := "post_call_transcription", data := some payloadAC, top := emptyPayload }

/-- An existing ticket for the pair `(a, c)`, with a non-null evaluation. -/
def t0 : RTicket :=
  { ticket_number := "T0AAAA", ticket_status := "open", subject := "old", category := "",
    customer_name := "", priority := "low", eval := some "done",
    call_transcription :=
      { event_timestamp := some 1,
        data := { agent_id := some "a", conversation_id := some "c", status := none,
                  user_id := none, transcript := none, metadata := none, analysis := none,
                  received_at := none, audio_url := none } },
    created_at := some 1, updated_at := none }

/-! ### C5: unique ticket-number allocation -/

/-- C5: for every record set, `generateUniqueTicketNumber` returns a 6-character
string over the alphabet `A-Z0-9` that is not already present as a
`ticket_number` in the set; the returned string is one of at most 5 drawn
candidates, and the call fails with `AllocationExhaustedError` exactly when
all 5 drawn candidates collide with existing numbers. -/
theorem c5_generateUniqueTicketNumber (db : List RTicket) (r : Nat → Fin 36) :
    (∀ s, generateUniqueTicketNumber (db.map RTicket.ticket_number) r = .ok s →
        s.length = 6 ∧ (∀ c ∈ s.data, c ∈ ticketChars.data) ∧
        (∀ t ∈ db, t.ticket_number ≠ s) ∧ ∃ k, k < 5 ∧ s = drawCandidate r (6 * k)) ∧
    (generateUniqueTicketNumber (db.map RTicket.ticket_number) r =
        .error .allocationExhausted ↔
      ∀ k, k < 5 → drawCandidate r (6 * k) ∈ db.map RTicket.ticket_number) := by
  constructor
  · intro s h
    obtain ⟨hmem, k, hk, he⟩ := genLoop_ok_spec (db.map RTicket.ticket_number) r 5 0 s h
    rw [Nat.zero_add] at he
    subst he
    refine ⟨drawCandidate_length r _, drawCandidate_chars r _, ?_, k, hk, rfl⟩
    intro t ht h2
    exact hmem (h2 ▸ List.mem_map_of_mem RTicket.ticket_number ht)
  · have h := genLoop_error_iff (db.map RTicket.ticket_number) r 5 0
    simpa using h

/-- Witness for C5 at the empty record set and the all-`A` random stream. -/
theorem c5_witness :
    generateUniqueTicketNumber (([] : List RTicket).map RTicket.ticket_number) rZero =
      .ok "AAAAAA" ∧ "AAAAAA".length = 6 := by
  have h := (c5_generateUniqueTicketNumber [] rZero).1 "AAAAAA" (by decide)
  exact ⟨by decide, h.1⟩

/-! ### C1: reconciliation of an already-ticketed pair -/

/-- C1: when the event's `(agent_id, conversation_id)` pair matches an existing
ticket, `create_robocall_ticket` overwrites exactly that ticket's `subject`,
`category`, `customer_name`, `priority` and whole `call_transcription` with
values derived from the event, forces `ticket_status = "closed"`, resets
`eval` to null, sets `updated_at`, preserves the original `ticket_number`
(and `created_at`), leaves every other ticket untouched, and returns the
preserved `ticket_number`. -/
theorem c1_reconcile_overwrites (now : Nat) (r : Nat → Fin 36) (ev : Event)
    (db pre post : List RTicket) (ex : RTicket)
    (h : splitFirst (ticketMatches (eventData ev).agent_id (eventData ev).conversation_id)
        db = some (pre, ex, post)) :
    create_robocall_ticket now r ev db =
        .ok (ex.ticket_number, pre ++ reconcileUpdate now ev ex :: post) ∧
    (reconcileUpdate now ev ex).subject = extractedSubject (eventData ev) ∧
    (reconcileUpdate now ev ex).category = extractedCategory (eventData ev) ∧
    (reconcileUpdate now ev ex).customer_name = extractedCustomerName (eventData ev) ∧
    (reconcileUpdate now ev ex).priority = extractedPriority (eventData ev) ∧
    (reconcileUpdate now ev ex).call_transcription = buildCallTranscription now (eventData ev) ∧
    (reconcileUpdate now ev ex).ticket_status = "closed" ∧
    (reconcileUpdate now ev ex).eval = none ∧
    (reconcileUpdate now ev ex).updated_at = some now ∧
    (reconcileUpdate now ev ex).ticket_number = ex.ticket_number ∧
    (reconcileUpdate now ev ex).created_at = ex.created_at := by
  refine ⟨?_, rfl, rfl, rfl, rfl, rfl, rfl, rfl, rfl, rfl, rfl⟩
  simp only [create_robocall_ticket]
  rw [h]

/-- Witness for C1: reconciling a second event for the pair `(a, c)` against a
record set holding the ticket `t0` for that pair. -/
theorem c1_witness :
    create_robocall_ticket 2000 rZero ev1 [t0] =
      .ok ("T0AAAA", [reconcileUpdate 2000 ev1 t0]) ∧
    (reconcileUpdate 2000 ev1 t0).eval = none := by
  have h := c1_reconcile_overwrites 2000 rZero ev1 [t0] [] [] t0 (by decide)
  exact ⟨by simpa using h.1, h.2.2.2.2.2.2.2.1⟩

/-! ### C10: the plain ticket webhook always throws -/

/-- C10: for every request to `POST /webhook/ticket` with a truthy `subject`,
the `ticket` object literal reads the uninitialized `ticket` binding, so the
handler answers 500 and inserts nothing; the 201 branch is unreachable for
every input. -/
theorem c10_webhook_ticket_unreachable (now : Nat) (r : Nat → Fin 36) (b : TicketBody)
    (db : List STicket) :
    (jsFalsyStr b.subject = false → webhookTicketPost now r b db = (500, db)) ∧
    (webhookTicketPost now r b db).1 ≠ 201 := by
  constructor
  · intro hs
    unfold webhookTicketPost
    rw [hs]
    simp only [Bool.false_eq_true, if_false]
    cases hg : generateUniqueTicketNumber (db.map STicket.ticket_number) r with
    | error e => rfl
    | ok tn => rfl
  · unfold webhookTicketPost
    by_cases hs : jsFalsyStr b.subject = true
    · rw [if_pos hs]
      intro hc
      simp at hc
    · rw [if_neg hs]
      cases hg : generateUniqueTicketNumber (db.map STicket.ticket_number) r with
      | error e =>
        intro hc
        simp at hc
      | ok tn =>
        intro hc
        simp [ticketLiteralInit] at hc

/-- A manual ticket body with a non-empty subject. -/
def bodyDemo : TicketBody := ⟨some "x", none, none, none, none, none⟩

/-- Witness for C10 at a concrete request. -/
theorem c10_witness :
    webhookTicketPost 0 rZero bodyDemo [] = (500, []) ∧
    (webhookTicketPost 0 rZero bodyDemo []).1 ≠ 201 := by
  have h := c10_webhook_ticket_unreachable 0 rZero bodyDemo []
  exact ⟨h.1 (by decide), h.2⟩

/-! ### C2: at most one ticket per pair -/

/-- A valid manual-creation body for the pair `(a, c)`. -/
def manualBodyAC : ManualBody := ⟨some "s", none, none, none, some "a", some "c"⟩

def dup1 : List RTicket := (robocallTicketManual 0 rZero manualBodyAC []).2

def dup2 : List RTicket := (robocallTicketManual 0 rOne manualBodyAC dup1).2

/-- C2 counterexample: the invariant fails over the system's operations as a
whole — two manual creations via `POST /webhook/robocall-ticket` with the same
`(agent_id, conversation_id)` reach a record set holding two tickets with that
pair, because the manual path never checks for an existing pair. -/
theorem c2_counterexample : ReachableState dup2 ∧ ¬ UniquePairs dup2 := by
  constructor
  · exact ReachableState.manual 0 rOne manualBodyAC dup1 dup2 201
      (ReachableState.manual 0 rZero manualBodyAC [] dup1 201 ReachableState.empty rfl) rfl
  · decide

/-- C2 amended: reconciliation alone preserves the at-most-one-ticket-per-pair
invariant — `create_robocall_ticket` updates the found ticket in place (same
pair) or inserts a ticket for a pair that the lookup just found absent. -/
theorem c2_amended_reconcile_preserves (now : Nat) (r : Nat → Fin 36) (ev : Event)
    (db db' : List RTicket) (tn : String) (hU : UniquePairs db)
    (h : create_robocall_ticket now r ev db = .ok (tn, db')) : UniquePairs db' := by
  simp only [create_robocall_ticket] at h
  cases hsp : splitFirst
      (ticketMatches (eventData ev).agent_id (eventData ev).conversation_id) db with
  | some y =>
    obtain ⟨pre, ex, post⟩ := y
    rw [hsp] at h
    simp only [Except.ok.injEq, Prod.mk.injEq] at h
    obtain ⟨-, hdb⟩ := h
    subst hdb
    obtain ⟨hdbe, hpx⟩ := splitFirst_eq _ db pre ex post hsp
    subst hdbe
    have hex : tpair ex = ((eventData ev).agent_id, (eventData ev).conversation_id) :=
      (ticketMatches_iff _ _ _).mp hpx
    have hupd : tpair (reconcileUpdate now ev ex) = tpair ex := by
      rw [hex]; rfl
    unfold UniquePairs at hU ⊢
    simp only [List.map_append, List.map_cons] at hU ⊢
    rw [hupd]
    exact hU
  | none =>
    rw [hsp] at h
    cases hg : generateUniqueTicketNumber (db.map RTicket.ticket_number) r with
    | error e => rw [hg] at h; cases h
    | ok tn2 =>
      rw [hg] at h
      simp only [Except.ok.injEq, Prod.mk.injEq] at h
      obtain ⟨-, hdb⟩ := h
      subst hdb
      unfold UniquePairs at hU ⊢
      rw [List.map_append, List.nodup_append]
      refine ⟨hU, by simp, ?_⟩
      intro x hx hx2
      simp only [List.map_cons, List.map_nil, List.mem_singleton] at hx2
      subst hx2
      obtain ⟨t, ht, hteq⟩ := List.mem_map.mp hx
      have hfail := splitFirst_none _ db hsp t ht
      have : tpair t = ((eventData ev).agent_id, (eventData ev).conversation_id) := by
        rw [hteq]; rfl
      rw [← ticketMatches_iff] at this
      rw [hfail] at this
      cases this

/-- Witness for the amended C2: reconciling a fresh event against the empty
(trivially pair-unique) record set yields a pair-unique record set. -/
theorem c2_witness : UniquePairs (resultDb (create_robocall_ticket 0 rZero ev1 [])) :=
  c2_amended_reconcile_preserves 0 rZero ev1 []
    (resultDb (create_robocall_ticket 0 rZero ev1 [])) "AAAAAA" (by decide) (by decide)

/-! ### C8: event_timestamp selection -/

def metadataZero : Metadata :=
  { start_time_unix_secs := some 0, accepted_time_unix_secs := some 5 }

def payloadZero : EventPayload := { emptyPayload with metadata := some metadataZero }

/-- C8 counterexample: with `start_time_unix_secs = 0` present (non-null) and
`accepted_time_unix_secs = 5`, the built `call_transcription` carries
`event_timestamp = 5`, not the first non-null value `0`: the JS `||` chain
skips a present `0`. -/
theorem c8_counterexample :
    payloadZero.metadata.bind Metadata.start_time_unix_secs = some 0 ∧
    (buildCallTranscription 99000 payloadZero).event_timestamp = some 5 ∧
    (buildCallTranscription 99000 payloadZero).event_timestamp ≠ some 0 := by
  refine ⟨rfl, rfl, ?_⟩
  decide

/-- C8 amended: `event_timestamp` is the first truthy (non-null and non-zero)
value among `metadata.start_time_unix_secs`, `metadata.accepted_time_unix_secs`
and the current time in seconds. -/
theorem c8_amended_first_truthy (d : EventPayload) (now : Nat) :
    (∀ n, n ≠ 0 → d.metadata.bind Metadata.start_time_unix_secs = some n →
      (buildCallTranscription now d).event_timestamp = some n) ∧
    (∀ n, n ≠ 0 →
      (d.metadata.bind Metadata.start_time_unix_secs = none ∨
        d.metadata.bind Metadata.start_time_unix_secs = some 0) →
      d.metadata.bind Metadata.accepted_time_unix_secs = some n →
      (buildCallTranscription now d).event_timestamp = some n) ∧
    ((d.metadata.bind Metadata.start_time_unix_secs = none ∨
        d.metadata.bind Metadata.start_time_unix_secs = some 0) →
      (d.metadata.bind Metadata.accepted_time_unix_secs = none ∨
        d.metadata.bind Metadata.accepted_time_unix_secs = some 0) →
      (buildCallTranscription now d).event_timestamp = some (now / 1000)) := by
  refine ⟨?_, ?_, ?_⟩
  · intro n hn h
    show some (eventTimestamp d.metadata (now / 1000)) = some n
    unfold eventTimestamp
    rw [h]
    simp [jsOrNat, hn]
  · intro n hn h1 h2
    show some (eventTimestamp d.metadata (now / 1000)) = some n
    unfold eventTimestamp
    rw [h2]
    rcases h1 with h1 | h1 <;> rw [h1] <;> simp [jsOrNat, hn]
  · intro h1 h2
    show some (eventTimestamp d.metadata (now / 1000)) = some (now / 1000)
    unfold eventTimestamp
    rcases h1 with h1 | h1 <;> rcases h2 with h2 | h2 <;> rw [h1, h2] <;> simp [jsOrNat]

/-- Witness for the amended C8 at a concrete payload with
`start_time_unix_secs = 7`. -/
theorem c8_witness : (buildCallTranscription 123000 payloadAC).event_timestamp = some 7 :=
  (c8_amended_first_truthy payloadAC 123000).1 7 (by decide) (by decide)

/-! ### C9: created_at on creation, updated_at on mutation -/

/-- C9: evaluated at concrete inputs.  The manual creation path does set
`created_at`, and the reconciler's update branch does set `updated_at`; but
the reconciler's not-found branch inserts its document without `created_at`
(first conjunct), contradicting the claim that every creating operation sets
`created_at`. -/
theorem c9_created_at_behavior :
    ((resultDb (create_robocall_ticket 1000 rZero ev1 [])).map RTicket.created_at) = [none] ∧
    (((robocallTicketManual 5 rZero manualBodyAC []).2).map RTicket.created_at) = [some 5] ∧
    ((resultDb (create_robocall_ticket 2000 rZero ev1 [t0])).map RTicket.updated_at) =
      [some 2000] := by
  refine ⟨?_, ?_, ?_⟩ <;> decide

/-! ### Webhook signature verification -/

theorem verify_cases (sec : String) (nowMs : Int) (hmacHex : String → String → String)
    (h t sig body : String) (n : Int)
    (ht : tComponent h = some t) (hs : v0Component h = some sig)
    (hn : jsNumber? t = some n) :
    verifyWebhookSignature (some sec) nowMs hmacHex (some h) body =
      if n * 1000 < nowMs - 1800000 then .error .expired
      else if sig = "v0=" ++ hmacHex sec (t ++ "." ++ body) then .ok body
      else .error .auth := by
  have hne : t ≠ "" := by
    intro e
    rw [e] at hn
    rw [(by decide : jsNumber? "" = (none : Option Int))] at hn
    cases hn
  simp only [verifyWebhookSignature, ht, hs]
  rw [if_neg hne]
  have hex : isExpired nowMs t = decide (n * 1000 < nowMs - 1800000) := by
    simp [isExpired, jsTimestampMs, hn]
  rw [hex]
  by_cases hlt : n * 1000 < nowMs - 1800000
  · simp [hlt]
  · simp [hlt]

/-- C3: with a configured secret and a parsed timestamp inside the freshness
window, signature verification succeeds exactly when the supplied `v0`
component is `"v0="` followed by the HMAC digest of `"<t>." + body`; and for
any second body whose digest differs (in particular any byte flip that
changes the digest of the external HMAC-SHA256), verification under the same
header fails with an auth error. -/
theorem c3_signature_verification (sec : String) (nowMs : Int)
    (hmacHex : String → String → String) (h t sig body : String) (n : Int)
    (ht : tComponent h = some t) (hs : v0Component h = some sig)
    (hn : jsNumber? t = some n) (hfresh : ¬ n * 1000 < nowMs - 1800000) :
    (verifyWebhookSignature (some sec) nowMs hmacHex (some h) body = .ok body ↔
      sig = "v0=" ++ hmacHex sec (t ++ "." ++ body)) ∧
    (∀ body2, hmacHex sec (t ++ "." ++ body2) ≠ hmacHex sec (t ++ "." ++ body) →
      sig = "v0=" ++ hmacHex sec (t ++ "." ++ body) →
      verifyWebhookSignature (some sec) nowMs hmacHex (some h) body2 = .error .auth) := by
  constructor
  · rw [verify_cases sec nowMs hmacHex h t sig body n ht hs hn, if_neg hfresh]
    by_cases hd : sig = "v0=" ++ hmacHex sec (t ++ "." ++ body)
    · simp [hd]
    · simp [hd]
  · intro body2 hdiff hsig
    rw [verify_cases sec nowMs hmacHex h t sig body2 n ht hs hn, if_neg hfresh]
    have hcond : ¬ sig = "v0=" ++ hmacHex sec (t ++ "." ++ body2) := by
      intro e
      rw [hsig] at e
      have e2 : ("v0=" ++ hmacHex sec (t ++ "." ++ body)).data =
          ("v0=" ++ hmacHex sec (t ++ "." ++ body2)).data := congrArg String.data e
      rw [String.data_append, String.data_append] at e2
      have e3 := List.append_cancel_left e2
      exact hdiff (String.ext e3).symm
    rw [if_neg hcond]

/-- The HMAC stand-in used by concrete witnesses: key concatenated with the
message. -/
def hmacDemo : String → String → String := fun s m => s ++ m

/-- Witness for C3: a correctly signed request verifies; changing the body to
one with a different digest fails. -/
theorem c3_witness :
    verifyWebhookSignature (some "k") 0 hmacDemo (some "t=1,v0=k1.b") "b" = .ok "b" ∧
    verifyWebhookSignature (some "k") 0 hmacDemo (some "t=1,v0=k1.b") "q" =
      .error .auth := by
  have h := c3_signature_verification "k" 0 hmacDemo "t=1,v0=k1.b" "1" "v0=k1.b" "b" 1
    (by decide) (by decide) (by decide) (by decide)
  exact ⟨h.1.mpr (by decide), h.2 "q" (by decide) (by decide)⟩

theorem postcallHandler_error (secret : Option String) (nowMs : Int)
    (hmacHex : String → String → String) (parse : String → Option Event)
    (nowDate : Nat) (r : Nat → Fin 36) (req : PostcallReq)
    (pcs : List (Event × Nat)) (db : List RTicket) (e : VerifyError)
    (hv : verifyWebhookSignature secret nowMs hmacHex req.header req.body = .error e) :
    postcallHandler secret nowMs hmacHex parse nowDate r req pcs db =
      (statusOfVerifyError e, pcs, db) := by
  unfold postcallHandler
  rw [hv]

theorem postcallHandler_ok (secret : Option String) (nowMs : Int)
    (hmacHex : String → String → String) (parse : String → Option Event)
    (nowDate : Nat) (r : Nat → Fin 36) (req : PostcallReq)
    (pcs : List (Event × Nat)) (db : List RTicket) (body : String)
    (hv : verifyWebhookSignature secret nowMs hmacHex req.header req.body = .ok body) :
    postcallHandler secret nowMs hmacHex parse nowDate r req pcs db =
      postcallProcess parse nowDate r body pcs db := by
  unfold postcallHandler
  rw [hv]

theorem postcall_status_403 (secret : Option String) (nowMs : Int)
    (hmacHex : String → String → String) (parse : String → Option Event)
    (nowDate : Nat) (r : Nat → Fin 36) (req : PostcallReq)
    (pcs : List (Event × Nat)) (db : List RTicket) :
    (postcallHandler secret nowMs hmacHex parse nowDate r req pcs db).1 = 403 ↔
      verifyWebhookSignature secret nowMs hmacHex req.header req.body =
        .error .expired := by
  cases hv : verifyWebhookSignature secret nowMs hmacHex req.header req.body with
  | error e =>
    rw [postcallHandler_error secret nowMs hmacHex parse nowDate r req pcs db e hv]
    cases e <;> simp [statusOfVerifyError]
  | ok body =>
    rw [postcallHandler_ok secret nowMs hmacHex parse nowDate r req pcs db body hv]
    unfold postcallProcess
    cases hp : parse body with
    | none => simp
    | some ev =>
      simp only []
      unfold postcallDispatch
      by_cases hty : ev.type ≠ "post_call_transcription"
      · rw [if_pos hty]
        simp
      · rw [if_neg hty]
        cases hc : create_robocall_ticket nowDate r ev db with
        | ok x => simp
        | error e => simp

/-- C4: error handling of the webhook endpoint — no configured secret means
500 (the configuration failure); a missing signature header, or one lacking a
usable `t=` or `v0=` component, means 401; with both components present and a
parsed timestamp `n`, the endpoint answers 403 exactly when `n` is more than
30 minutes in the past relative to receipt time, so arbitrarily-future
timestamps are never rejected. -/
theorem c4_postcall_error_handling (nowMs : Int) (hmacHex : String → String → String)
    (parse : String → Option Event) (nowDate : Nat) (r : Nat → Fin 36)
    (pcs : List (Event × Nat)) (db : List RTicket) (sec : String) :
    (∀ req : PostcallReq,
      postcallHandler none nowMs hmacHex parse nowDate r req pcs db = (500, pcs, db)) ∧
    (∀ body : String,
      postcallHandler (some sec) nowMs hmacHex parse nowDate r ⟨none, body⟩ pcs db =
        (401, pcs, db)) ∧
    (∀ h body, (tComponent h = none ∨ tComponent h = some "" ∨ v0Component h = none) →
      postcallHandler (some sec) nowMs hmacHex parse nowDate r ⟨some h, body⟩ pcs db =
        (401, pcs, db)) ∧
    (∀ h body t sig n, tComponent h = some t → v0Component h = some sig →
      jsNumber? t = some n →
      ((postcallHandler (some sec) nowMs hmacHex parse nowDate r ⟨some h, body⟩ pcs db).1
          = 403 ↔ n * 1000 < nowMs - 1800000)) := by
  refine ⟨?_, ?_, ?_, ?_⟩
  · intro req
    exact postcallHandler_error none nowMs hmacHex parse nowDate r req pcs db .config rfl
  · intro body
    exact postcallHandler_error (some sec) nowMs hmacHex parse nowDate r ⟨none, body⟩
      pcs db .auth rfl
  · intro h body hcase
    refine postcallHandler_error (some sec) nowMs hmacHex parse nowDate r ⟨some h, body⟩
      pcs db .auth ?_
    show verifyWebhookSignature (some sec) nowMs hmacHex (some h) body = .error .auth
    simp only [verifyWebhookSignature]
    rcases hcase with hc | hc | hc
    · rw [hc]
    · rw [hc]
      cases hv : v0Component h with
      | none => rfl
      | some sig => simp
    · rw [hc]
      cases htc : tComponent h with
      | none => rfl
      | some t2 => rfl
  · intro h body t sig n ht hs hn
    rw [postcall_status_403 (some sec) nowMs hmacHex parse nowDate r ⟨some h, body⟩ pcs db]
    show verifyWebhookSignature (some sec) nowMs hmacHex (some h) body = .error .expired ↔
      n * 1000 < nowMs - 1800000
    rw [verify_cases sec nowMs hmacHex h t sig body n ht hs hn]
    by_cases hlt : n * 1000 < nowMs - 1800000
    · rw [if_pos hlt]
      simp [hlt]
    · rw [if_neg hlt]
      by_cases hd : sig = "v0=" ++ hmacHex sec (t ++ "." ++ body)
      · rw [if_pos hd]
        simp [hlt]
      · rw [if_neg hd]
        simp [hlt]

/-- A `JSON.parse` stand-in that always fails. -/
def parseNone : String → Option Event := fun _ => none

/-- Witness for C4 at concrete requests: missing secret, missing header,
header without components, and a fresh timestamp. -/
theorem c4_witness :
    postcallHandler none 0 hmacDemo parseNone 0 rZero ⟨some "t=1,v0=x", "b"⟩ [] [] =
      (500, [], []) ∧
    postcallHandler (some "k") 0 hmacDemo parseNone 0 rZero ⟨none, "b"⟩ [] [] =
      (401, [], []) ∧
    postcallHandler (some "k") 0 hmacDemo parseNone 0 rZero ⟨some "x", "b"⟩ [] [] =
      (401, [], []) ∧
    ((postcallHandler (some "k") 0 hmacDemo parseNone 0 rZero ⟨some "t=1,v0=x", "b"⟩
        [] []).1 = 403 ↔ (1 : Int) * 1000 < 0 - 1800000) := by
  have h := c4_postcall_error_handling 0 hmacDemo parseNone 0 rZero [] [] "k"
  exact ⟨h.1 _, h.2.1 "b", h.2.2.1 "x" "b" (Or.inl (by decide)),
    h.2.2.2 "t=1,v0=x" "b" "1" "v0=x" 1 (by decide) (by decide) (by decide)⟩

/-- C6: an authenticated, well-formed request whose `type` is not
`post_call_transcription` is answered 200 while neither the
`postcall_transcriptions` set nor the `robocall_tickets` set changes. -/
theorem c6_unrecognized_type_ack (sec : String) (nowMs : Int)
    (hmacHex : String → String → String) (parse : String → Option Event)
    (nowDate : Nat) (r : Nat → Fin 36) (h t sig body : String) (n : Int)
    (pcs : List (Event × Nat)) (db : List RTicket) (ev : Event)
    (ht : tComponent h = some t) (hs : v0Component h = some sig)
    (hn : jsNumber? t = some n) (hfresh : ¬ n * 1000 < nowMs - 1800000)
    (hsig : sig = "v0=" ++ hmacHex sec (t ++ "." ++ body))
    (hp : parse body = some ev) (hty : ev.type ≠ "post_call_transcription") :
    postcallHandler (some sec) nowMs hmacHex parse nowDate r ⟨some h, body⟩ pcs db =
      (200, pcs, db) := by
  have hv : verifyWebhookSignature (some sec) nowMs hmacHex (some h) body = .ok body := by
    rw [verify_cases sec nowMs hmacHex h t sig body n ht hs hn, if_neg hfresh, if_pos hsig]
  rw [postcallHandler_ok (some sec) nowMs hmacHex parse nowDate r ⟨some h, body⟩
    pcs db body hv]
  unfold postcallProcess
  rw [hp]
  show postcallDispatch nowDate r ev pcs db = (200, pcs, db)
  unfold postcallDispatch
  rw [if_pos hty]

def evIgnored : Event := { type := "audio", data := none, top := emptyPayload }

/-- A `JSON.parse` stand-in returning an event of an unrecognized type. -/
def parseIgnored : String → Option Event := fun _ => some evIgnored

/-- Witness for C6 at a concrete authenticated request carrying an `audio`
event. -/
theorem c6_witness :
    postcallHandler (some "k") 0 hmacDemo parseIgnored 0 rZero
      ⟨some "t=1,v0=k1.b", "b"⟩ [] [] = (200, [], []) :=
  c6_unrecognized_type_ack "k" 0 hmacDemo parseIgnored 0 rZero "t=1,v0=k1.b" "1"
    "v0=k1.b" "b" 1 [] [] evIgnored (by decide) (by decide) (by decide) (by decide)
    (by decide) rfl (by decide)

/-! ### C7: transcript and audio event ordering -/

/-- The record set after an audio event for `(a, c)` hits an empty collection:
an upserted shell carrying only the key and the audio URL. -/
def audioFirstDb : List RTicket := audioUpsert (some "a") (some "c") "u" []

/-- Transcript event first, then audio event, from the empty record set. -/
def orderTranscriptFirst : List RTicket :=
  audioUpsert (some "a") (some "c") "u" (resultDb (create_robocall_ticket 1000 rZero ev1 []))

/-- Audio event first, then transcript event, from the empty record set. -/
def orderAudioFirst : List RTicket :=
  resultDb (create_robocall_ticket 1000 rZero ev1 audioFirstDb)

/-- C7 counterexample: the two processing orders do not converge.  With the
transcript first the final ticket carries `audio_url = "u"`; with the audio
first, the reconciler's overwrite of the whole `call_transcription` discards
the stored `audio_url`, leaving none. -/
theorem c7_counterexample :
    orderTranscriptFirst.map (fun t => t.call_transcription.data.audio_url) = [some "u"] ∧
    orderAudioFirst.map (fun t => t.call_transcription.data.audio_url) = [none] ∧
    orderTranscriptFirst ≠ orderAudioFirst := by
  refine ⟨?_, ?_, ?_⟩ <;> decide

/-- C7 amended: in the transcript-then-audio order the final ticket does
contain both the transcript-derived fields and the audio URL — the audio
upsert finds the freshly reconciled ticket and sets only
`call_transcription.data.audio_url` on it; the reverse order does not
converge to this document (see the counterexample). -/
theorem c7_amended_transcript_then_audio (now : Nat) (r : Nat → Fin 36) (ev : Event)
    (db : List RTicket) (url tn : String) (db1 : List RTicket)
    (h1 : splitFirst (ticketMatches (eventData ev).agent_id
        (eventData ev).conversation_id) db = none)
    (h2 : create_robocall_ticket now r ev db = .ok (tn, db1)) :
    audioUpsert (eventData ev).agent_id (eventData ev).conversation_id url db1 =
      db ++ [audioMerge url (freshTicketDoc now tn ev)] ∧
    (audioMerge url (freshTicketDoc now tn ev)).subject = extractedSubject (eventData ev) ∧
    (audioMerge url (freshTicketDoc now tn ev)).call_transcription.data.transcript =
      some (cleanTranscript (eventData ev).transcript) ∧
    (audioMerge url (freshTicketDoc now tn ev)).call_transcription.data.audio_url =
      some url ∧
    (audioMerge url (freshTicketDoc now tn ev)).ticket_number = tn := by
  simp only [create_robocall_ticket] at h2
  rw [h1] at h2
  cases hg : generateUniqueTicketNumber (db.map RTicket.ticket_number) r with
  | error e => rw [hg] at h2; cases h2
  | ok tn2 =>
    rw [hg] at h2
    simp only [Except.ok.injEq, Prod.mk.injEq] at h2
    obtain ⟨htn, hdb1⟩ := h2
    subst htn
    subst hdb1
    refine ⟨?_, rfl, rfl, rfl, rfl⟩
    have hm : ticketMatches (eventData ev).agent_id (eventData ev).conversation_id
        (freshTicketDoc now tn2 ev) = true := by
      rw [ticketMatches_iff]
      rfl
    unfold audioUpsert
    rw [splitFirst_append_singleton _ (freshTicketDoc now tn2 ev) hm db h1]

/-- Witness for the amended C7: transcript then audio from the empty record
set. -/
theorem c7_witness :
    audioUpsert (eventData ev1).agent_id (eventData ev1).conversation_id "u"
      (resultDb (create_robocall_ticket 1000 rZero ev1 [])) =
      [] ++ [audioMerge "u" (freshTicketDoc 1000 "AAAAAA" ev1)] ∧
    (audioMerge "u" (freshTicketDoc 1000 "AAAAAA" ev1)).call_transcription.data.audio_url =
      some "u" := by
  have h := c7_amended_transcript_then_audio 1000 rZero ev1 [] "u" "AAAAAA"
    (resultDb (create_robocall_ticket 1000 rZero ev1 [])) (by decide) (by decide)
  exact ⟨h.1, h.2.2.2.1⟩
